import Mathlib

/-!
Verification of the custom particle system in `ParticlesBackground`
(canvas-based 2D physics with mouse interaction), covering the per-frame
physics (position advance, edge bounce, mouse repulsion, velocity damping),
field initialization (`createParticles`), the renderer's mouse-connection
band, and the mount/unmount lifecycle.

Conventions of the embedding:
* all numbers are rationals (`ℚ`); the JavaScript code computes with floats
  but the specified behaviour is exact real arithmetic;
* the single `Math.sqrt` call (`distance = Math.sqrt(dx*dx + dy*dy)`) is
  modelled by passing the distance `d` as an explicit argument together
  with its defining property `IsDist` (`0 ≤ d` and `d * d` equals the
  squared distance to the mouse);
* `Math.random()` is modelled by a stream `rnd : ℕ → ℚ` of samples,
  consumed in the order the source calls it (five samples per particle);
* the repository contains two copies of the component; the primary copy
  uses non-strict edge comparisons (`<= 0`, `>= width`) and the secondary
  copy uses strict ones (`< 0`, `> width`); both are embedded.
-/

/-- Particle record: position, velocity, radius, and the stored base
velocity (`baseVx`/`baseVy` are written at creation and never read by the
physics). -/
structure Particle where
  x : ℚ
  y : ℚ
  vx : ℚ
  vy : ℚ
  size : ℚ
  baseVx : ℚ
  baseVy : ℚ
deriving DecidableEq

/-- Per-frame multiplicative velocity damping factor (0.995). -/
def VELOCITY_DAMPING : ℚ := 995 / 1000

/-- Fraction of velocity magnitude kept after an edge bounce (0.8). -/
def BOUNCE_ENERGY_LOSS : ℚ := 8 / 10

/-- Inner threshold of the mouse-to-particle connection band (50). -/
def MOUSE_CONNECTION_MIN : ℚ := 50

/-- Outer threshold of the mouse-to-particle connection band (120). -/
def MOUSE_CONNECTION_MAX : ℚ := 120

/-- Fixed multiplier for the velocity nudge of the repelling force
(`0.001` in the source). -/
def REPEL_VELOCITY_FACTOR : ℚ := 1 / 1000

/-- One axis of the advance-and-bounce step of the primary copy:
`pos += vel`, then `if (pos <= 0) { pos = 0; vel = abs(vel)*0.8 }`, then
`if (pos >= extent) { pos = extent; vel = -abs(vel)*0.8 }`.  Returns the
new (position, velocity) pair. -/
def bounceAxis (extent pos vel : ℚ) : ℚ × ℚ :=
  let p1 := pos + vel
  let q1 := if p1 ≤ 0 then ((0 : ℚ), |vel| * BOUNCE_ENERGY_LOSS) else (p1, vel)
  if q1.1 ≥ extent then (extent, -|q1.2| * BOUNCE_ENERGY_LOSS) else q1

/-- One axis of the advance-and-bounce step of the secondary copy, which
uses strict comparisons (`< 0` and `> extent`) instead. -/
def bounceAxis009 (extent pos vel : ℚ) : ℚ × ℚ :=
  let p1 := pos + vel
  let q1 := if p1 < 0 then ((0 : ℚ), |vel| * BOUNCE_ENERGY_LOSS) else (p1, vel)
  if q1.1 > extent then (extent, -|q1.2| * BOUNCE_ENERGY_LOSS) else q1

/-- Advance a particle by its velocity and handle edge collisions on both
axes (primary copy, non-strict comparisons). -/
def moveAndBounce (w h : ℚ) (p : Particle) : Particle :=
  let qx := bounceAxis w p.x p.vx
  let qy := bounceAxis h p.y p.vy
  { p with x := qx.1, vx := qx.2, y := qy.1, vy := qy.2 }

/-- Advance a particle by its velocity and handle edge collisions on both
axes (secondary copy, strict comparisons). -/
def moveAndBounce009 (w h : ℚ) (p : Particle) : Particle :=
  let qx := bounceAxis009 w p.x p.vx
  let qy := bounceAxis009 h p.y p.vy
  { p with x := qx.1, vx := qx.2, y := qy.1, vy := qy.2 }

/-- Linear falloff factor of the repelling force:
`force = (repellingRadius - distance) / repellingRadius`. -/
def forceFactor (R d : ℚ) : ℚ := (R - d) / R

/-- Mouse repelling step: with `dx, dy` the vector from the particle to
the mouse and `d` the distance, when `d < R` the particle is displaced
away from the mouse by `d⃗ * force * strength` and its velocity is nudged
by `d⃗ * force * 0.001`; otherwise it is untouched. -/
def applyRepel (R strength mx my d : ℚ) (p : Particle) : Particle :=
  let dx := mx - p.x
  let dy := my - p.y
  if d < R then
    let force := forceFactor R d
    { p with
      x := p.x - dx * force * strength
      y := p.y - dy * force * strength
      vx := p.vx - dx * force * REPEL_VELOCITY_FACTOR
      vy := p.vy - dy * force * REPEL_VELOCITY_FACTOR }
  else p

/-- Velocity damping step: both velocity components are multiplied by the
damping factor 0.995. -/
def dampVelocity (p : Particle) : Particle :=
  { p with vx := p.vx * VELOCITY_DAMPING, vy := p.vy * VELOCITY_DAMPING }

/-- Full per-frame physics of one particle in the primary copy, in source
order: advance and bounce, then repel (using the distance `d` of the
post-bounce position from the mouse), then damp. -/
def updateParticle (R strength w h mx my d : ℚ) (p : Particle) : Particle :=
  dampVelocity (applyRepel R strength mx my d (moveAndBounce w h p))

/-- Full per-frame physics of one particle in the secondary copy.  Its
repelling radius (150), strength (0.02), damping (0.995) and bounce factor
(0.8) are hard-coded literals in that copy. -/
def updateParticle009 (w h mx my d : ℚ) (p : Particle) : Particle :=
  dampVelocity (applyRepel 150 (2 / 100) mx my d (moveAndBounce009 w h p))

/-- Squared Euclidean distance from the mouse `(mx, my)` to `(px, py)`. -/
def dist2 (mx my px py : ℚ) : ℚ :=
  (mx - px) * (mx - px) + (my - py) * (my - py)

/-- Characterization of the `Math.sqrt` value: `d` is the distance from
the mouse to particle `p` when it is nonnegative and squares to the
squared distance. -/
def IsDist (mx my : ℚ) (p : Particle) (d : ℚ) : Prop :=
  0 ≤ d ∧ d * d = dist2 mx my p.x p.y

/-- One frame of the physics over the whole particle array: each output
particle is the update of the corresponding input particle, where the
distance fed to the repelling step is the true distance of the post-bounce
position from the mouse. -/
def FrameStep (R strength w h mx my : ℚ) (ps ps' : List Particle) : Prop :=
  List.Forall₂
    (fun p p' => ∃ d, IsDist mx my (moveAndBounce w h p) d ∧
      p' = updateParticle R strength w h mx my d p) ps ps'

/-- Squared speed of one particle. -/
def kinetic (p : Particle) : ℚ := p.vx * p.vx + p.vy * p.vy

/-- Sum of squared velocity components over the particle array. -/
def energy (ps : List Particle) : ℚ := (ps.map kinetic).sum

/-- The frame update specialized to the case where the repelling branch is
not taken for any particle: advance-and-bounce then damp. -/
def stepNoRepel (w h : ℚ) (ps : List Particle) : List Particle :=
  ps.map fun p => dampVelocity (moveAndBounce w h p)

/-- The mouse is at distance at least `R` from every particle's
post-bounce position (squared form, so it is decidable over `ℚ`). -/
def FarFromAll (R mx my w h : ℚ) (ps : List Particle) : Prop :=
  ∀ p ∈ ps, R * R ≤
    dist2 mx my (moveAndBounce w h p).x (moveAndBounce w h p).y

instance (R mx my w h : ℚ) (ps : List Particle) :
    Decidable (FarFromAll R mx my w h ps) :=
  List.decidableBAll _ ps

/-- Number of particles created for a `w × h` surface:
`Math.floor((canvas.width * canvas.height) / particleDensity)`, with the
`for` loop running zero times when the count is not positive. -/
def particleCount (w h density : ℚ) : ℕ :=
  (Int.floor (w * h / density)).toNat

/-- Particle built in iteration `i` of the creation loop; the five
`Math.random()` calls of one iteration are drawn from the stream in source
order (`vx`, `vy`, then `x`, `y`, `size`). -/
def mkParticle (rnd : ℕ → ℚ) (w h velMin velMax sizeMin sizeMax : ℚ)
    (i : ℕ) : Particle :=
  let vx := velMin + rnd (5 * i) * (velMax - velMin)
  let vy := velMin + rnd (5 * i + 1) * (velMax - velMin)
  { x := rnd (5 * i + 2) * w
    y := rnd (5 * i + 3) * h
    vx := vx * 2
    vy := vy * 2
    size := sizeMin + rnd (5 * i + 4) * (sizeMax - sizeMin)
    baseVx := vx * 2
    baseVy := vy * 2 }

/-- Field initializer: clears the array and fills it with
`particleCount` freshly random particles. -/
def createParticles (rnd : ℕ → ℚ)
    (w h density velMin velMax sizeMin sizeMax : ℚ) : List Particle :=
  (List.range (particleCount w h density)).map
    (mkParticle rnd w h velMin velMax sizeMin sizeMax)

/-- Renderer: whether the mouse-to-particle connection line is drawn, from
`if (distance < maxThreshold && distance > minThreshold)`. -/
def mouseConnectionDraws (d : ℚ) : Bool :=
  decide (d < MOUSE_CONNECTION_MAX) && decide (d > MOUSE_CONNECTION_MIN)

/-- Renderer: alpha of the mouse-to-particle connection line, from
`(maxThreshold - distance) / maxThreshold * 0.3`. -/
def mouseConnectionAlpha (d : ℚ) : ℚ :=
  (MOUSE_CONNECTION_MAX - d) / MOUSE_CONNECTION_MAX * (3 / 10)

/-- Configuration of the component that the lifecycle needs: the density
divisor, the initial velocity range and the particle size range. -/
structure Config where
  particleDensity : ℚ
  velMin : ℚ
  velMax : ℚ
  sizeMin : ℚ
  sizeMax : ℚ
deriving DecidableEq

/-- Observable state of the component's environment: canvas dimensions,
the particle array, how many resize and mousemove listeners are
registered, and whether an animation frame is scheduled. -/
structure SimState where
  width : ℚ
  height : ℚ
  particles : List Particle
  resizeListeners : ℕ
  mouseListeners : ℕ
  frameScheduled : Bool
deriving DecidableEq

/-- The registered resize handler: it only copies the window dimensions
onto the canvas; it does not touch the particle array. -/
def resizeCanvas (newW newH : ℚ) (s : SimState) : SimState :=
  { s with width := newW, height := newH }

/-- Running `createParticles` against the current canvas dimensions:
replaces the whole particle array. -/
def runCreateParticles (rnd : ℕ → ℚ) (cfg : Config) (s : SimState) :
    SimState :=
  { s with particles := (createParticles rnd s.width s.height
      cfg.particleDensity cfg.velMin cfg.velMax cfg.sizeMin cfg.sizeMax) }

/-- The mount effect: when the canvas ref is empty it warns and returns
without doing anything; otherwise it sizes the canvas, creates the
particles, registers the resize and mousemove listeners, and starts the
animation loop (which leaves a frame scheduled). -/
def mountEffect (rnd : ℕ → ℚ) (cfg : Config) (viewW viewH : ℚ)
    (canvasAvailable : Bool) (s : SimState) : SimState :=
  if canvasAvailable then
    let s1 := runCreateParticles rnd cfg (resizeCanvas viewW viewH s)
    { s1 with
      resizeListeners := s1.resizeListeners + 1
      mouseListeners := s1.mouseListeners + 1
      frameScheduled := true }
  else s

/-- The cleanup returned by the effect: removes the two listeners it
registered and cancels the pending animation frame if one is set. -/
def cleanupEffect (s : SimState) : SimState :=
  { s with
    resizeListeners := s.resizeListeners - 1
    mouseListeners := s.mouseListeners - 1
    frameScheduled := false }

/-- State of a fresh page before the component ever mounts. -/
def initState : SimState :=
  { width := 0, height := 0, particles := [], resizeListeners := 0,
    mouseListeners := 0, frameScheduled := false }

/-- One mount immediately followed by its unmount cleanup. -/
def mountUnmountCycle (rnd : ℕ → ℚ) (cfg : Config) (viewW viewH : ℚ)
    (s : SimState) : SimState :=
  cleanupEffect (mountEffect rnd cfg viewW viewH true s)

/-- Resting particle well inside a 100 × 100 surface, used to exhibit the
hypotheses of the general theorems at a concrete input. -/
def pRest : Particle := ⟨10, 10, 0, 0, 2, 0, 0⟩

/-- Particle whose advance lands exactly on the left edge
(`x + vx = 1 + (-1) = 0`). -/
def pEdge : Particle := ⟨1, 50, -1, 0, 2, -1, 0⟩

/-- Particle sitting on the left edge, at distance 10 from the mouse
placed at `(10, 50)`. -/
def pEdgeRepel : Particle := ⟨0, 50, 0, 0, 2, 0, 0⟩

/-- Result of one frame on `pEdgeRepel` with the mouse at `(10, 50)` on a
100 × 100 surface (distance 10, repelling branch taken). -/
def pEdgeRepelOut : Particle :=
  updateParticle 150 (2 / 100) 100 100 10 50 10 pEdgeRepel

/-- Particle advancing diagonally with nothing near any edge. -/
def pDiag : Particle := ⟨10, 10, 1, 1, 2, 1, 1⟩

/-- Three-frame trajectory of the single resting particle (the frame
update fixes `pRest` when the mouse is far away at `(1000, 10)`). -/
def trajC5 : List (List Particle) := [[pRest], [pRest], [pRest]]

/-- Randomness stream that always returns 0. -/
def rnd0 : ℕ → ℚ := fun _ => 0

/-- Stale particle of a small mounted state (surface 4 × 2). -/
def pOld : Particle := ⟨3, 1, 0, 0, 2, 0, 0⟩

/-- Mounted component state on a 4 × 2 surface holding the single stale
particle `pOld`. -/
def sSmall : SimState :=
  { width := 4, height := 2, particles := [pOld], resizeListeners := 1,
    mouseListeners := 1, frameScheduled := true }

lemma bounceAxis_vel_sq_le (e pos vel : ℚ) :
    (bounceAxis e pos vel).2 * (bounceAxis e pos vel).2 ≤ vel * vel := by
  have hvB : |(|vel|) * BOUNCE_ENERGY_LOSS| = |vel| * BOUNCE_ENERGY_LOSS :=
    abs_of_nonneg (mul_nonneg (abs_nonneg vel) (by norm_num [BOUNCE_ENERGY_LOSS]))
  simp only [bounceAxis]
  split_ifs with h1 h2 h2 <;> dsimp only at *
  · rw [hvB]
    norm_num [BOUNCE_ENERGY_LOSS]
    nlinarith [abs_mul_abs_self vel, abs_nonneg vel]
  · norm_num [BOUNCE_ENERGY_LOSS]
    nlinarith [abs_mul_abs_self vel, abs_nonneg vel]
  · norm_num [BOUNCE_ENERGY_LOSS]
    nlinarith [abs_mul_abs_self vel, abs_nonneg vel]
  · exact le_refl _

lemma bounceAxis_pos_mem (e pos vel : ℚ) (he : 0 ≤ e) :
    0 ≤ (bounceAxis e pos vel).1 ∧ (bounceAxis e pos vel).1 ≤ e := by
  simp only [bounceAxis]
  split_ifs with h1 h2 h2 <;> dsimp only at * <;> constructor <;> linarith

lemma kinetic_step_le (w h : ℚ) (p : Particle) :
    kinetic (dampVelocity (moveAndBounce w h p)) ≤ kinetic p := by
  have hx := bounceAxis_vel_sq_le w p.x p.vx
  have hy := bounceAxis_vel_sq_le h p.y p.vy
  simp only [kinetic, dampVelocity, moveAndBounce, VELOCITY_DAMPING]
  nlinarith [mul_self_nonneg ((bounceAxis w p.x p.vx).2),
    mul_self_nonneg ((bounceAxis h p.y p.vy).2)]

lemma energy_stepNoRepel_le (w h : ℚ) (ps : List Particle) :
    energy (stepNoRepel w h ps) ≤ energy ps := by
  induction ps with
  | nil => simp [energy, stepNoRepel]
  | cons p ps ih =>
    simp only [energy, stepNoRepel, List.map_cons, List.sum_cons] at *
    exact add_le_add (kinetic_step_le w h p) ih

lemma frameStep_far_eq {R strength w h mx my : ℚ}
    {ps ps' : List Particle}
    (hstep : FrameStep R strength w h mx my ps ps')
    (hfar : FarFromAll R mx my w h ps) :
    ps' = stepNoRepel w h ps := by
  unfold FrameStep at hstep
  induction hstep with
  | nil => rfl
  | cons hpq htail ih =>
    rename_i p p' ps ps'
    have hfar' : FarFromAll R mx my w h ps := fun q hq =>
      hfar q (List.mem_cons_of_mem _ hq)
    obtain ⟨d, ⟨hd0, hdsq⟩, hp'⟩ := hpq
    have hfp := hfar p (List.mem_cons_self _ _)
    have hdR : ¬ d < R := by
      intro hlt
      have hsq : d * d < R * R := mul_self_lt_mul_self hd0 hlt
      rw [hdsq] at hsq
      exact absurd hfp (not_le.mpr hsq)
    simp only [stepNoRepel, List.map_cons, List.cons_eq_cons]
    refine ⟨?_, ?_⟩
    · rw [hp']
      simp [updateParticle, applyRepel, if_neg hdR]
    · simpa [stepNoRepel] using ih hfar'

lemma bounceAxis_eq_009 {e pos vel : ℚ} (he : 0 < e)
    (h0 : pos + vel ≠ 0) (hne : pos + vel ≠ e) :
    bounceAxis e pos vel = bounceAxis009 e pos vel := by
  simp only [bounceAxis, bounceAxis009]
  rcases lt_trichotomy (pos + vel) 0 with hlt | heq | hgt
  · rw [if_pos hlt.le, if_pos hlt]
    dsimp only
    rw [if_neg (by push_neg; linarith), if_neg (by push_neg; linarith)]
  · exact absurd heq h0
  · rw [if_neg (show ¬pos + vel ≤ 0 by push_neg; linarith),
        if_neg (show ¬pos + vel < 0 by push_neg; linarith)]
    dsimp only
    rcases lt_trichotomy (pos + vel) e with hl2 | he2 | hg2
    · rw [if_neg (show ¬pos + vel ≥ e by push_neg; linarith),
          if_neg (show ¬pos + vel > e by push_neg; linarith)]
    · exact absurd he2 hne
    · rw [if_pos (show pos + vel ≥ e by linarith), if_pos hg2]

lemma moveAndBounce_eq_009 {w h : ℚ} (p : Particle) (hw : 0 < w) (hh : 0 < h)
    (hx0 : p.x + p.vx ≠ 0) (hxw : p.x + p.vx ≠ w)
    (hy0 : p.y + p.vy ≠ 0) (hyh : p.y + p.vy ≠ h) :
    moveAndBounce w h p = moveAndBounce009 w h p := by
  simp only [moveAndBounce, moveAndBounce009,
    bounceAxis_eq_009 hw hx0 hxw, bounceAxis_eq_009 hh hy0 hyh]

lemma createParticles_length (rnd : ℕ → ℚ)
    (w h density velMin velMax sizeMin sizeMax : ℚ)
    (hw : 0 ≤ w) (hh : 0 ≤ h) (hD : 0 < density) :
    ((createParticles rnd w h density velMin velMax sizeMin sizeMax).length : ℤ)
      = Int.floor (w * h / density) := by
  have h0 : (0 : ℚ) ≤ w * h / density := div_nonneg (mul_nonneg hw hh) hD.le
  simp [createParticles, particleCount,
    Int.toNat_of_nonneg (Int.floor_nonneg.mpr h0)]

lemma cycle_counts (rnd : ℕ → ℚ) (cfg : Config) (viewW viewH : ℚ)
    (s : SimState) :
    (mountUnmountCycle rnd cfg viewW viewH s).resizeListeners
        = s.resizeListeners ∧
    (mountUnmountCycle rnd cfg viewW viewH s).mouseListeners
        = s.mouseListeners ∧
    (mountUnmountCycle rnd cfg viewW viewH s).frameScheduled = false := by
  simp [mountUnmountCycle, cleanupEffect, mountEffect, runCreateParticles,
    resizeCanvas]

/-- C5: with the mouse held farther than the repelling radius from every
particle throughout, the sum of squared velocities over the particle array
is non-increasing along any trajectory of frame updates; in particular the
energy after any later frame is at most the energy after frame 1. -/
theorem C5_energy_decay_no_mouse (R strength w h mx my : ℚ)
    (traj : List (List Particle))
    (hchain : List.Chain' (FrameStep R strength w h mx my) traj)
    (hfar : ∀ ps ∈ traj, FarFromAll R mx my w h ps) :
    ∀ i j, (hi : i < traj.length) → (hj : j < traj.length) → i ≤ j →
      energy (traj.get ⟨j, hj⟩) ≤ energy (traj.get ⟨i, hi⟩) := by
  have adj : ∀ (i : ℕ) (hb : i + 1 < traj.length),
      energy (traj.get ⟨i + 1, hb⟩)
        ≤ energy (traj.get ⟨i, Nat.lt_of_succ_lt hb⟩) := by
    intro i hb
    have hstep := List.chain'_iff_get.mp hchain i (by omega)
    have hfari := hfar _ (List.get_mem traj i (Nat.lt_of_succ_lt hb))
    have heq := frameStep_far_eq hstep hfari
    rw [show traj.get ⟨i + 1, hb⟩
        = stepNoRepel w h (traj.get ⟨i, Nat.lt_of_succ_lt hb⟩) from heq]
    exact energy_stepNoRepel_le w h _
  intro i j hi
  induction j with
  | zero =>
    intro hj hij
    have h0 : i = 0 := Nat.le_zero.mp hij
    subst h0
    exact le_refl _
  | succ j ih =>
    intro hj hij
    rcases Nat.eq_or_lt_of_le hij with heq | hlt
    · subst heq
      exact le_refl _
    · have hij2 : i ≤ j := Nat.lt_succ_iff.mp hlt
      have hj2 : j < traj.length := Nat.lt_of_succ_lt hj
      exact le_trans (adj j hj) (ih hj2 hij2)

lemma frameStep_pRest :
    FrameStep 150 (2 / 100) 100 100 1000 10 [pRest] [pRest] := by
  refine List.Forall₂.cons ⟨990, ⟨by norm_num, ?_⟩, ?_⟩ List.Forall₂.nil
  · norm_num [dist2, moveAndBounce, bounceAxis, pRest, BOUNCE_ENERGY_LOSS]
  · norm_num [updateParticle, moveAndBounce, bounceAxis, applyRepel,
      dampVelocity, pRest, BOUNCE_ENERGY_LOSS, VELOCITY_DAMPING,
      forceFactor, REPEL_VELOCITY_FACTOR]

lemma far_pRest : FarFromAll 150 1000 10 100 100 [pRest] := by
  norm_num [FarFromAll, dist2, moveAndBounce, bounceAxis, pRest,
    BOUNCE_ENERGY_LOSS]

/-- C5 witness: the hypotheses hold of the concrete three-frame trajectory
`trajC5` and the theorem yields the energy comparison of frames 2 and 1. -/
theorem C5_energy_decay_no_mouse_witness :
    energy (trajC5.get ⟨2, by norm_num [trajC5]⟩)
      ≤ energy (trajC5.get ⟨1, by norm_num [trajC5]⟩) := by
  have hchain : List.Chain' (FrameStep 150 (2 / 100) 100 100 1000 10) trajC5 := by
    refine List.chain'_cons.mpr ⟨frameStep_pRest, ?_⟩
    exact List.chain'_cons.mpr ⟨frameStep_pRest, List.chain'_singleton _⟩
  have hfar : ∀ ps ∈ trajC5, FarFromAll 150 1000 10 100 100 ps := by
    intro ps hps
    simp only [trajC5, List.mem_cons, List.not_mem_nil, or_false] at hps
    rcases hps with rfl | rfl | rfl <;> exact far_pRest
  exact C5_energy_decay_no_mouse 150 (2 / 100) 100 100 1000 10 trajC5
    hchain hfar 1 2 (by norm_num [trajC5]) (by norm_num [trajC5])
    (by norm_num)

/-- C2 counterexample: from an in-bounds state (particle on the left edge
of a 100 × 100 surface) with the mouse at `(10, 50)`, one frame update
pushes the particle to a negative x coordinate, so positions do not remain
within `[0, width] × [0, height]` at the end of every update call. -/
theorem C2_containment_cex :
    FrameStep 150 (2 / 100) 100 100 10 50 [pEdgeRepel] [pEdgeRepelOut] ∧
    (0 ≤ pEdgeRepel.x ∧ pEdgeRepel.x ≤ 100 ∧
      0 ≤ pEdgeRepel.y ∧ pEdgeRepel.y ≤ 100) ∧
    pEdgeRepelOut.x < 0 := by
  refine ⟨?_, by norm_num [pEdgeRepel], ?_⟩
  · refine List.Forall₂.cons ⟨10, ⟨by norm_num, ?_⟩, rfl⟩ List.Forall₂.nil
    norm_num [dist2, moveAndBounce, bounceAxis, pEdgeRepel,
      BOUNCE_ENERGY_LOSS]
  · norm_num [pEdgeRepelOut, pEdgeRepel, updateParticle, moveAndBounce,
      bounceAxis, applyRepel, dampVelocity, BOUNCE_ENERGY_LOSS,
      VELOCITY_DAMPING, forceFactor, REPEL_VELOCITY_FACTOR]

/-- C2 amended: when the mouse is at distance at least the repelling
radius from every particle, every particle's position lies in
`[0, w] × [0, h]` at the end of the frame update (for any starting
positions, in particular in-bounds ones). -/
theorem C2_containment_far (R strength w h mx my : ℚ)
    (hw : 0 ≤ w) (hh : 0 ≤ h) (ps ps' : List Particle)
    (hstep : FrameStep R strength w h mx my ps ps')
    (hfar : FarFromAll R mx my w h ps) :
    ∀ p2 ∈ ps', 0 ≤ p2.x ∧ p2.x ≤ w ∧ 0 ≤ p2.y ∧ p2.y ≤ h := by
  intro p2 hp2
  rw [frameStep_far_eq hstep hfar] at hp2
  simp only [stepNoRepel, List.mem_map] at hp2
  obtain ⟨p, _, rfl⟩ := hp2
  have hx := bounceAxis_pos_mem w p.x p.vx hw
  have hy := bounceAxis_pos_mem h p.y p.vy hh
  simp only [dampVelocity, moveAndBounce]
  exact ⟨hx.1, hx.2, hy.1, hy.2⟩

/-- C2 witness: the amended containment applied to the one-particle frame
step with the mouse far away at `(1000, 10)`. -/
theorem C2_containment_far_witness :
    (0 : ℚ) ≤ 100 ∧
    ∀ p2 ∈ ([pRest] : List Particle),
      0 ≤ p2.x ∧ p2.x ≤ 100 ∧ 0 ≤ p2.y ∧ p2.y ≤ 100 := by
  refine ⟨by norm_num, ?_⟩
  exact C2_containment_far 150 (2 / 100) 100 100 1000 10 (by norm_num)
    (by norm_num) [pRest] [pRest] frameStep_pRest far_pRest

/-- C4: with `d` the Euclidean distance of the (post-bounce) particle from
the mouse, a particle at `d ≥ R` receives no repelling displacement or
velocity change (the frame reduces to bounce-then-damp); for `d < R` the
update applies the linear falloff factor `(R - d) / R`, which is 1 at
`d = 0` and never exceeds 1. -/
theorem C4_repulsion_falloff (R strength w h mx my d : ℚ) (p : Particle)
    (hR : 0 < R) (hd : IsDist mx my (moveAndBounce w h p) d) :
    (R ≤ d → updateParticle R strength w h mx my d p
        = dampVelocity (moveAndBounce w h p)) ∧
    (d < R → updateParticle R strength w h mx my d p = dampVelocity
        { moveAndBounce w h p with
          x := (moveAndBounce w h p).x
            - (mx - (moveAndBounce w h p).x) * forceFactor R d * strength
          y := (moveAndBounce w h p).y
            - (my - (moveAndBounce w h p).y) * forceFactor R d * strength
          vx := (moveAndBounce w h p).vx
            - (mx - (moveAndBounce w h p).x) * forceFactor R d
              * REPEL_VELOCITY_FACTOR
          vy := (moveAndBounce w h p).vy
            - (my - (moveAndBounce w h p).y) * forceFactor R d
              * REPEL_VELOCITY_FACTOR }) ∧
    forceFactor R 0 = 1 ∧
    forceFactor R d ≤ 1 := by
  refine ⟨?_, ?_, ?_, ?_⟩
  · intro hge
    simp [updateParticle, applyRepel, if_neg (not_lt.mpr hge)]
  · intro hlt
    simp [updateParticle, applyRepel, if_pos hlt]
  · simp [forceFactor, div_self hR.ne']
  · have hd0 := hd.1
    rw [forceFactor, div_le_one hR]
    linarith

/-- C4 witness: concrete instance with the mouse at `(20, 10)` and the
resting particle at distance 10, inside the default radius 150. -/
theorem C4_repulsion_falloff_witness :
    (0 : ℚ) < 150 ∧ IsDist 20 10 (moveAndBounce 100 100 pRest) 10 ∧
    forceFactor 150 0 = 1 := by
  refine ⟨by norm_num, ?_, ?_⟩
  · constructor
    · norm_num
    · norm_num [dist2, moveAndBounce, bounceAxis, pRest, BOUNCE_ENERGY_LOSS]
  · exact (C4_repulsion_falloff 150 (2 / 100) 100 100 20 10 10 pRest
      (by norm_num)
      ⟨by norm_num,
        by norm_num [dist2, moveAndBounce, bounceAxis, pRest,
          BOUNCE_ENERGY_LOSS]⟩).2.2.1

/-- C6 counterexample: `pEdge` advances to exactly 0 (on the boundary, not
outside `[0, 100]`), yet the primary copy's collision step does fire there
(`<=`/`>=` comparisons): the velocity changes from -1 to
`|-1| * 0.8 = 4/5`, so "a position exactly at 0 triggers no bounce" is
false of the code. -/
theorem C6_boundary_cex :
    pEdge.x + pEdge.vx = 0 ∧
    (moveAndBounce 100 100 pEdge).vx ≠ pEdge.vx ∧
    (moveAndBounce 100 100 pEdge).x = 0 ∧
    (moveAndBounce 100 100 pEdge).vx = 4 / 5 := by
  norm_num [moveAndBounce, bounceAxis, pEdge, BOUNCE_ENERGY_LOSS]

/-- C6 amended: per axis, the collision step fires if and only if the
advanced position is `≤ 0` or `≥` the extent (boundary positions
included); on firing, the position is clamped to the violated boundary and
the velocity component is set inward with magnitude scaled by the
bounce-retention factor 0.8; strictly interior advanced positions are kept
with velocity unchanged. -/
theorem C6_boundary_collision (w h : ℚ) (p : Particle)
    (hw : 0 < w) (hh : 0 < h) :
    ((0 < p.x + p.vx ∧ p.x + p.vx < w) →
      (moveAndBounce w h p).x = p.x + p.vx ∧
      (moveAndBounce w h p).vx = p.vx) ∧
    (p.x + p.vx ≤ 0 →
      (moveAndBounce w h p).x = 0 ∧
      (moveAndBounce w h p).vx = |p.vx| * BOUNCE_ENERGY_LOSS) ∧
    (w ≤ p.x + p.vx →
      (moveAndBounce w h p).x = w ∧
      (moveAndBounce w h p).vx = -|p.vx| * BOUNCE_ENERGY_LOSS) ∧
    ((0 < p.y + p.vy ∧ p.y + p.vy < h) →
      (moveAndBounce w h p).y = p.y + p.vy ∧
      (moveAndBounce w h p).vy = p.vy) ∧
    (p.y + p.vy ≤ 0 →
      (moveAndBounce w h p).y = 0 ∧
      (moveAndBounce w h p).vy = |p.vy| * BOUNCE_ENERGY_LOSS) ∧
    (h ≤ p.y + p.vy →
      (moveAndBounce w h p).y = h ∧
      (moveAndBounce w h p).vy = -|p.vy| * BOUNCE_ENERGY_LOSS) := by
  have hax : ∀ e pos vel : ℚ, 0 < e →
      ((0 < pos + vel ∧ pos + vel < e) →
        bounceAxis e pos vel = (pos + vel, vel)) ∧
      (pos + vel ≤ 0 →
        bounceAxis e pos vel = (0, |vel| * BOUNCE_ENERGY_LOSS)) ∧
      (e ≤ pos + vel →
        bounceAxis e pos vel = (e, -|vel| * BOUNCE_ENERGY_LOSS)) := by
    intro e pos vel he
    refine ⟨?_, ?_, ?_⟩
    · rintro ⟨hl, hr⟩
      simp only [bounceAxis]
      rw [if_neg (show ¬pos + vel ≤ 0 by push_neg; linarith)]
      dsimp only
      rw [if_neg (show ¬pos + vel ≥ e by push_neg; linarith)]
    · intro hle
      simp only [bounceAxis]
      rw [if_pos hle]
      dsimp only
      rw [if_neg (show ¬(0 : ℚ) ≥ e by push_neg; linarith)]
    · intro hge
      simp only [bounceAxis]
      rw [if_neg (show ¬pos + vel ≤ 0 by push_neg; linarith)]
      dsimp only
      rw [if_pos (show pos + vel ≥ e by linarith)]
  have hx := hax w p.x p.vx hw
  have hy := hax h p.y p.vy hh
  refine ⟨fun hc => ?_, fun hc => ?_, fun hc => ?_,
    fun hc => ?_, fun hc => ?_, fun hc => ?_⟩ <;>
    simp only [moveAndBounce] <;>
    (first
      | (rw [hx.1 hc]) | (rw [hx.2.1 hc]) | (rw [hx.2.2 hc])
      | (rw [hy.1 hc]) | (rw [hy.2.1 hc]) | (rw [hy.2.2 hc])) <;>
    exact ⟨rfl, rfl⟩

/-- C6 witness: the amended characterization applied to `pEdge`, whose
advance lands exactly on the left edge of a 100 × 100 surface. -/
theorem C6_boundary_collision_witness :
    (moveAndBounce 100 100 pEdge).x = 0 ∧
    (moveAndBounce 100 100 pEdge).vx = |pEdge.vx| * BOUNCE_ENERGY_LOSS :=
  (C6_boundary_collision 100 100 pEdge (by norm_num) (by norm_num)).2.1
    (by norm_num [pEdge])

/-- C7: the mouse-to-particle connection line is drawn exactly for
distances strictly inside the annular band `(50, 120)` (never at or below
50, never at or above 120), and its alpha is proportional to the
closeness `120 - d` with constant `1/400`, hence non-increasing in the
distance. -/
theorem C7_mouse_connection_band (d : ℚ) :
    (mouseConnectionDraws d = true ↔
      MOUSE_CONNECTION_MIN < d ∧ d < MOUSE_CONNECTION_MAX) ∧
    mouseConnectionDraws MOUSE_CONNECTION_MIN = false ∧
    mouseConnectionDraws MOUSE_CONNECTION_MAX = false ∧
    mouseConnectionAlpha d = (MOUSE_CONNECTION_MAX - d) * (1 / 400) ∧
    (∀ e : ℚ, d ≤ e → mouseConnectionAlpha e ≤ mouseConnectionAlpha d) := by
  refine ⟨?_, ?_, ?_, ?_, ?_⟩
  · simp [mouseConnectionDraws, and_comm]
  · norm_num [mouseConnectionDraws, MOUSE_CONNECTION_MIN,
      MOUSE_CONNECTION_MAX]
  · norm_num [mouseConnectionDraws, MOUSE_CONNECTION_MIN,
      MOUSE_CONNECTION_MAX]
  · rw [mouseConnectionAlpha, MOUSE_CONNECTION_MAX]
    ring
  · intro e hde
    simp only [mouseConnectionAlpha, MOUSE_CONNECTION_MAX]
    linarith

/-- C7 witness: at distance 60 the line is drawn with the stated alpha. -/
theorem C7_mouse_connection_band_witness :
    mouseConnectionDraws 60 = true ∧
    mouseConnectionAlpha 60 = (MOUSE_CONNECTION_MAX - 60) * (1 / 400) :=
  ⟨(C7_mouse_connection_band 60).1.mpr
      (by norm_num [MOUSE_CONNECTION_MIN, MOUSE_CONNECTION_MAX]),
    (C7_mouse_connection_band 60).2.2.2.1⟩

/-- C3: field initialization produces exactly `⌊w * h / density⌋`
particles for any nonnegative surface dimensions and positive density
divisor, and a zero-area surface yields the empty particle array. -/
theorem C3_particle_count (rnd : ℕ → ℚ)
    (w h density velMin velMax sizeMin sizeMax : ℚ)
    (hw : 0 ≤ w) (hh : 0 ≤ h) (hD : 0 < density) :
    ((createParticles rnd w h density velMin velMax sizeMin
        sizeMax).length : ℤ) = Int.floor (w * h / density) ∧
    (w * h = 0 → createParticles rnd w h density velMin velMax sizeMin
        sizeMax = []) := by
  constructor
  · exact createParticles_length rnd w h density velMin velMax sizeMin
      sizeMax hw hh hD
  · intro h0
    simp [createParticles, particleCount, h0]

/-- C3 witness: an 800 × 600 surface with the default density divisor 8000
yields exactly 60 particles. -/
theorem C3_particle_count_witness :
    (0 : ℚ) ≤ 800 ∧ (0 : ℚ) ≤ 600 ∧ (0 : ℚ) < 8000 ∧
    ((createParticles rnd0 800 600 8000 (-(6 / 10)) (6 / 10) (12 / 10)
        (37 / 10)).length : ℤ) = 60 := by
  refine ⟨by norm_num, by norm_num, by norm_num, ?_⟩
  rw [(C3_particle_count rnd0 800 600 8000 (-(6 / 10)) (6 / 10) (12 / 10)
    (37 / 10) (by norm_num) (by norm_num) (by norm_num)).1]
  norm_num

/-- C1 counterexample: firing the registered resize handler on a mounted
state (surface 4 × 2 holding the stale particle `pOld`, density divisor 8)
with new dimensions 100 × 100 leaves the particle array untouched: the
old particle survives with its prior position and the count is not the
new dimensions' formula value 1250. -/
theorem C1_resize_rebuild_cex :
    (resizeCanvas 100 100 sSmall).particles = [pOld] ∧
    (resizeCanvas 100 100 sSmall).width = 100 ∧
    (resizeCanvas 100 100 sSmall).height = 100 ∧
    (resizeCanvas 100 100 sSmall).particles.length ≠
      particleCount 100 100 8 := by
  refine ⟨rfl, rfl, rfl, ?_⟩
  have hc : particleCount 100 100 8 = 1250 := by
    norm_num [particleCount]
    decide
  rw [hc]
  norm_num [resizeCanvas, sSmall]

/-- C1 amended: the resize handler updates only the canvas dimensions and
never touches the particle array; the array is rebuilt (to the formula
count, discarding every prior particle) only when `createParticles` runs
during effect setup, whose result is independent of the previous array. -/
theorem C1_resize_updates_dims_only (newW newH : ℚ) (s : SimState)
    (rnd : ℕ → ℚ) (cfg : Config) :
    (resizeCanvas newW newH s).particles = s.particles ∧
    (resizeCanvas newW newH s).width = newW ∧
    (resizeCanvas newW newH s).height = newH ∧
    (runCreateParticles rnd cfg (resizeCanvas newW newH s)).particles
      = createParticles rnd newW newH cfg.particleDensity cfg.velMin
          cfg.velMax cfg.sizeMin cfg.sizeMax ∧
    (runCreateParticles rnd cfg { s with particles := [] }).particles
      = (runCreateParticles rnd cfg s).particles :=
  ⟨rfl, rfl, rfl, rfl, rfl⟩

/-- C8: with the canvas unavailable the mount effect is a no-op (registers
no listeners, creates no particles, schedules no frame, changes nothing),
and a later mount with the canvas available behaves exactly as a direct
successful mount. -/
theorem C8_missing_canvas_noop (rnd : ℕ → ℚ) (cfg : Config)
    (viewW viewH : ℚ) (s : SimState) :
    mountEffect rnd cfg viewW viewH false s = s ∧
    (mountEffect rnd cfg viewW viewH false s).resizeListeners
        = s.resizeListeners ∧
    (mountEffect rnd cfg viewW viewH false s).mouseListeners
        = s.mouseListeners ∧
    (mountEffect rnd cfg viewW viewH false s).particles = s.particles ∧
    (mountEffect rnd cfg viewW viewH false s).frameScheduled
        = s.frameScheduled ∧
    mountEffect rnd cfg viewW viewH true
        (mountEffect rnd cfg viewW viewH false s)
      = mountEffect rnd cfg viewW viewH true s := by
  simp [mountEffect]

/-- C9: any number of mount/unmount cycles from a fresh page leaves zero
registered resize listeners, zero registered mousemove listeners, and no
pending scheduled frame. -/
theorem C9_lifecycle_symmetry (rnd : ℕ → ℚ) (cfg : Config)
    (viewW viewH : ℚ) (n : ℕ) :
    ((mountUnmountCycle rnd cfg viewW viewH)^[n]
        initState).resizeListeners = 0 ∧
    ((mountUnmountCycle rnd cfg viewW viewH)^[n]
        initState).mouseListeners = 0 ∧
    ((mountUnmountCycle rnd cfg viewW viewH)^[n]
        initState).frameScheduled = false := by
  induction n with
  | zero => simp [initState]
  | succ n ih =>
    rw [Function.iterate_succ_apply']
    obtain ⟨h1, h2, h3⟩ := ih
    have hc := cycle_counts rnd cfg viewW viewH
      ((mountUnmountCycle rnd cfg viewW viewH)^[n] initState)
    exact ⟨hc.1.trans h1, hc.2.1.trans h2, hc.2.2⟩

/-- C10 counterexample: on `pEdge` (advance lands exactly on the left
edge, mouse far away at distance 1000) the two copies' per-frame physics
disagree: the primary copy bounces (`<=` comparison, velocity becomes
`0.8 * 0.995`), the secondary does not (`<` comparison, velocity stays
`-1 * 0.995`). -/
theorem C10_copies_divergence_cex :
    IsDist 1000 50 (moveAndBounce 100 100 pEdge) 1000 ∧
    IsDist 1000 50 (moveAndBounce009 100 100 pEdge) 1000 ∧
    updateParticle 150 (2 / 100) 100 100 1000 50 1000 pEdge
      ≠ updateParticle009 100 100 1000 50 1000 pEdge := by
  refine ⟨⟨by norm_num, ?_⟩, ⟨by norm_num, ?_⟩, ?_⟩
  · norm_num [dist2, moveAndBounce, bounceAxis, pEdge, BOUNCE_ENERGY_LOSS]
  · norm_num [dist2, moveAndBounce009, bounceAxis009, pEdge,
      BOUNCE_ENERGY_LOSS]
  · norm_num [updateParticle, updateParticle009, moveAndBounce,
      moveAndBounce009, bounceAxis, bounceAxis009, applyRepel,
      dampVelocity, pEdge, BOUNCE_ENERGY_LOSS, VELOCITY_DAMPING,
      forceFactor, REPEL_VELOCITY_FACTOR, Particle.mk.injEq]

/-- C10 amended: the per-frame physics of the two copies agree (for the
primary copy run at the secondary's hard-coded radius 150 and strength
0.02) whenever neither advanced coordinate lands exactly on a boundary of
the positive-extent surface; the counterexample shows they differ on such
boundary landings. -/
theorem C10_copies_agree_off_boundary (w h mx my d : ℚ) (p : Particle)
    (hw : 0 < w) (hh : 0 < h)
    (hx0 : p.x + p.vx ≠ 0) (hxw : p.x + p.vx ≠ w)
    (hy0 : p.y + p.vy ≠ 0) (hyh : p.y + p.vy ≠ h) :
    updateParticle 150 (2 / 100) w h mx my d p
      = updateParticle009 w h mx my d p := by
  unfold updateParticle updateParticle009
  rw [moveAndBounce_eq_009 p hw hh hx0 hxw hy0 hyh]

/-- C10 witness: the two copies produce the same result on `pDiag`, whose
advance stays strictly inside the 100 × 100 surface. -/
theorem C10_copies_agree_off_boundary_witness :
    (0 : ℚ) < 100 ∧ pDiag.x + pDiag.vx ≠ 0 ∧ pDiag.x + pDiag.vx ≠ 100 ∧
    pDiag.y + pDiag.vy ≠ 0 ∧ pDiag.y + pDiag.vy ≠ 100 ∧
    updateParticle 150 (2 / 100) 100 100 31 11 20 pDiag
      = updateParticle009 100 100 31 11 20 pDiag :=
  ⟨by norm_num, by norm_num [pDiag], by norm_num [pDiag],
    by norm_num [pDiag], by norm_num [pDiag],
    C10_copies_agree_off_boundary 100 100 31 11 20 pDiag (by norm_num)
      (by norm_num) (by norm_num [pDiag]) (by norm_num [pDiag])
      (by norm_num [pDiag]) (by norm_num [pDiag])⟩
